import Mathlib

/-!
Shallow embedding of the toy Redis server in src/main.rs.

Modelling conventions:
* Wire bytes are naturals in 0..255; a received buffer is a `List Nat`.
* A Rust `String` is modelled as `RString := List Nat`, a list of Unicode
  code points.  The parser builds strings with `char::from(u8)` (Latin-1),
  so all stored code points are <= 255; `String::as_bytes`/`len` observe the
  UTF-8 encoding, modelled by `utf8Str`/`utf8Len`.
* Panics (`unwrap`, `panic!`, `assert!`, out-of-bounds indexing) are
  modelled as `Except.error` values of type `PErr`; in the running program a
  panic unwinds the spawned tokio task, dropping the connection's socket
  while leaving the rest of the process running.
* The shared `HashMap` is modelled as a function store; `insert` is
  pointwise update, which is exactly the map semantics of `HashMap::insert`.
* `u8` length arithmetic in the parsers is modelled with `% 256`
  (release-mode wrapping semantics); all inputs considered here keep the
  intermediate values far below 256, where debug and release agree.
-/

/-- Panic/abort causes in the Rust source: out-of-bounds indexing, a failed
`assert!`, the `panic!("Unknown command received")`, a failed
`str::parse::<u64>().unwrap()`, and a failed `SystemTime::checked_add(..).unwrap()`. -/
inductive PErr where
  | indexOutOfBounds
  | assertFailed
  | unknownCommand
  | parseIntFailed
  | timeOverflow
deriving DecidableEq

deriving instance DecidableEq for Except

/-- A Rust `String` as its list of Unicode code points. -/
abbrev RString := List Nat

/-- The UTF-8 encoding of one code point, as Rust `char` encoding performs it. -/
def utf8Char (c : Nat) : List Nat :=
  if c < 128 then [c]
  else if c < 2048 then [192 + c / 64, 128 + c % 64]
  else if c < 65536 then [224 + c / 4096, 128 + c / 64 % 64, 128 + c % 64]
  else [240 + c / 262144, 128 + c / 4096 % 64, 128 + c / 64 % 64, 128 + c % 64]

/-- The byte sequence `String::as_bytes` of a string: UTF-8 of each char. -/
def utf8Str (s : RString) : List Nat :=
  List.foldr (fun c acc => utf8Char c ++ acc) [] s

/-- Rust `String::len`: the length in bytes of the UTF-8 encoding. -/
def utf8Len (s : RString) : Nat := (utf8Str s).length

/-- Lowercasing of one code point, as `str::to_lowercase` acts on the
Latin-1 range (the only code points the parser can produce). -/
def lowerChar (c : Nat) : Nat :=
  if 65 ≤ c ∧ c ≤ 90 then c + 32
  else if 192 ≤ c ∧ c ≤ 222 ∧ c ≠ 215 then c + 32
  else c

/-- Rust `str::to_lowercase` on parser-produced strings. -/
def toLower (s : RString) : RString := List.map lowerChar s

/-- Decimal digits of `n`, most significant first, with explicit fuel so the
definition is structural and computable by the kernel. -/
def natDigitsAux : Nat → Nat → RString → RString
  | 0, _, acc => acc
  | fuel + 1, n, acc =>
    if n = 0 then acc else natDigitsAux fuel (n / 10) ((48 + n % 10) :: acc)

/-- Decimal rendering of a natural, as `format!` renders a `usize`. -/
def natToRString (n : Nat) : RString :=
  if n = 0 then [48] else natDigitsAux (n + 1) n []

/-- The string "ping". -/
def pingLower : RString := [112, 105, 110, 103]

/-- The string "echo". -/
def echoLower : RString := [101, 99, 104, 111]

/-- The string "set". -/
def setLower : RString := [115, 101, 116]

/-- The string "get". -/
def getLower : RString := [103, 101, 116]

/-- The string "\r\n". -/
def crlf : RString := [13, 10]

/-- The reply string "+PONG\r\n". -/
def pongReply : RString := [43, 80, 79, 78, 71, 13, 10]

/-- The reply string "+OK\r\n". -/
def okReply : RString := [43, 79, 75, 13, 10]

/-- The reply string "$-1\r\n". -/
def nullBulkReply : RString := [36, 45, 49, 13, 10]

/-- The enum `CommandName` of src/main.rs. -/
inductive CommandName where
  | PING
  | ECHO
  | SET
  | GET
deriving DecidableEq

/-- The struct `Command` of src/main.rs. -/
structure Command where
  name : CommandName
  operands : List RString
deriving DecidableEq

/-- The struct `ValueAndExpiration` of src/main.rs: a stored value and an
optional absolute expiry in milliseconds since the Unix epoch. -/
structure ValueAndExpiration where
  value : RString
  expiration : Option Nat
deriving DecidableEq

/-- The shared `HashMap<String, ValueAndExpiration>` as a map. -/
abbrev Store := RString → Option ValueAndExpiration

/-- The empty map (`HashMap::new`). -/
def storeEmpty : Store := fun _ => none

/-- `HashMap::insert`: pointwise update, replacing any previous entry. -/
def storeInsert (k : RString) (v : ValueAndExpiration) (dict : Store) : Store :=
  fun k2 => if k2 = k then some v else dict k2

/-- Vec/slice indexing `xs[i]`: a panic (`PErr.indexOutOfBounds`) when `i` is
out of bounds. -/
def idx (l : List RString) (i : Nat) : Except PErr RString :=
  match l.get? i with
  | some x => Except.ok x
  | none => Except.error PErr.indexOutOfBounds

/-- Digit-accumulation loop of `str::parse::<u64>`: checked per step, so an
accumulator reaching 2^64 is an overflow error. -/
def parseU64Digits : List Nat → Nat → Except PErr Nat
  | [], acc => Except.ok acc
  | c :: rest, acc =>
    if 48 ≤ c ∧ c ≤ 57 then
      if acc * 10 + (c - 48) < 2 ^ 64 then parseU64Digits rest (acc * 10 + (c - 48))
      else Except.error PErr.parseIntFailed
    else Except.error PErr.parseIntFailed

/-- Rust `str::parse::<u64>`: optional leading '+', then at least one ASCII
digit, value below 2^64. -/
def parseU64 (s : RString) : Except PErr Nat :=
  match s with
  | [] => Except.error PErr.parseIntFailed
  | c :: rest =>
    if c = 43 then
      match rest with
      | [] => Except.error PErr.parseIntFailed
      | _ => parseU64Digits rest 0
    else parseU64Digits s 0

/-- Largest millisecond timestamp representable by `SystemTime` on a
64-bit Unix target: i64::MAX seconds plus sub-second milliseconds. -/
def maxSystemTimeMs : Nat := (2 ^ 63 - 1) * 1000 + 999

/-- `SystemTime::now().checked_add(Duration::from_millis ms)` followed by
`.unwrap()`: overflow of the timestamp domain is a panic, not saturation. -/
def checkedAddMs (now ms : Nat) : Except PErr Nat :=
  if now + ms ≤ maxSystemTimeMs then Except.ok (now + ms)
  else Except.error PErr.timeOverflow

/-- The function `construct_return_redis_string` of src/main.rs:
`format!("${}\r\n{}\r\n", val.len(), val)`, where `val.len()` is the UTF-8
byte length of the stored string. -/
def construct_return_redis_string (val : RString) : RString :=
  36 :: (natToRString (utf8Len val) ++ crlf ++ val ++ crlf)

/-- The function `dispatcher` of src/main.rs: interpret a `Command` against
the store at wall-clock time `now` (milliseconds since the epoch), producing
the reply string and the updated store, or a panic. -/
def dispatcher (command : Command) (dict : Store) (now : Nat) :
    Except PErr (RString × Store) :=
  match command.name with
  | CommandName.PING => Except.ok (pongReply, dict)
  | CommandName.ECHO =>
    match idx command.operands 0 with
    | Except.error e => Except.error e
    | Except.ok m => Except.ok (43 :: (m ++ crlf), dict)
  | CommandName.SET =>
    match idx command.operands 0, idx command.operands 1 with
    | Except.error e, _ => Except.error e
    | _, Except.error e => Except.error e
    | Except.ok k, Except.ok v =>
      if command.operands.length = 2 then
        Except.ok (okReply, storeInsert k ⟨v, none⟩ dict)
      else
        match idx command.operands 2 with
        | Except.error e => Except.error e
        | Except.ok msStr =>
          match parseU64 msStr with
          | Except.error e => Except.error e
          | Except.ok ms =>
            match checkedAddMs now ms with
            | Except.error e => Except.error e
            | Except.ok exp =>
              Except.ok (okReply, storeInsert k ⟨v, some exp⟩ dict)
  | CommandName.GET =>
    match idx command.operands 0 with
    | Except.error e => Except.error e
    | Except.ok key =>
      match dict key with
      | some value =>
        match value.expiration with
        | some exp =>
          if now > exp then Except.ok (nullBulkReply, dict)
          else Except.ok (construct_return_redis_string value.value, dict)
        | none => Except.ok (construct_return_redis_string value.value, dict)
      | none => Except.ok (nullBulkReply, dict)

/-- Length-scanning loop shared by `parse_bulk_string` and `parse_array`:
`while buf[ptr] != b'\r' { len = len * 10 + (buf[ptr] - b'0') }` with `u8`
wrapping arithmetic; running off the 512-byte buffer is an index panic. -/
def parseLenLoop : List Nat → Nat → Except PErr (Nat × List Nat)
  | [], _ => Except.error PErr.indexOutOfBounds
  | b :: rest, acc =>
    if b = 13 then Except.ok (acc, rest)
    else parseLenLoop rest ((acc * 10 + (b + 208) % 256) % 256)

/-- Reading `len` raw bytes one by one (`result.push(char::from(buf[ptr]))`);
running off the buffer is an index panic. -/
def takeExact : Nat → List Nat → Except PErr (RString × List Nat)
  | 0, rest => Except.ok ([], rest)
  | _ + 1, [] => Except.error PErr.indexOutOfBounds
  | n + 1, b :: rest =>
    match takeExact n rest with
    | Except.error e => Except.error e
    | Except.ok (s, r) => Except.ok (b :: s, r)

/-- The function `parse_bulk_string` of src/main.rs.  It asserts the '$'
tag, scans digits until '\r', skips one byte (the '\n' position, unchecked),
reads the announced number of raw bytes, and skips two more bytes
(the trailing "\r\n" position, unchecked). -/
def parse_bulk_string (buf : List Nat) : Except PErr (RString × List Nat) :=
  match buf with
  | [] => Except.error PErr.indexOutOfBounds
  | b :: rest =>
    if b = 36 then
      match parseLenLoop rest 0 with
      | Except.error e => Except.error e
      | Except.ok (len, rest1) =>
        match takeExact len (rest1.drop 1) with
        | Except.error e => Except.error e
        | Except.ok (s, rest2) => Except.ok (s, rest2.drop 2)
    else Except.error PErr.assertFailed

/-- The element loop of `parse_array`: `len` successive bulk strings. -/
def parseElems : Nat → List Nat → Except PErr (List RString × List Nat)
  | 0, rest => Except.ok ([], rest)
  | n + 1, rest =>
    match parse_bulk_string rest with
    | Except.error e => Except.error e
    | Except.ok (s, rest1) =>
      match parseElems n rest1 with
      | Except.error e => Except.error e
      | Except.ok (ss, rest2) => Except.ok (s :: ss, rest2)

/-- The function `parse_array` of src/main.rs.  It skips the first byte
without checking it is '*', scans the element count, skips the '\n'
position, and parses that many bulk strings. -/
def parse_array (buf : List Nat) : Except PErr (List RString × List Nat) :=
  match parseLenLoop (buf.drop 1) 0 with
  | Except.error e => Except.error e
  | Except.ok (len, rest) => parseElems len (rest.drop 1)

/-- The function `parse_redis_command` of src/main.rs: parse the array,
then dispatch on the lowercased first element.  For SET, the code pushes
`elements[1]`, `elements[2]`, and — whenever more than three elements are
present — `elements[4]`, never inspecting `elements[3]`.  An unrecognized
command word is `panic!("Unknown command received")`. -/
def parse_redis_command (buf : List Nat) : Except PErr Command :=
  match parse_array buf with
  | Except.error e => Except.error e
  | Except.ok (elements, _) =>
    match idx elements 0 with
    | Except.error e => Except.error e
    | Except.ok e0 =>
      if toLower e0 = pingLower then Except.ok ⟨CommandName.PING, []⟩
      else if toLower e0 = echoLower then
        match idx elements 1 with
        | Except.error e => Except.error e
        | Except.ok e1 => Except.ok ⟨CommandName.ECHO, [e1]⟩
      else if toLower e0 = setLower then
        match idx elements 1, idx elements 2 with
        | Except.error e, _ => Except.error e
        | _, Except.error e => Except.error e
        | Except.ok e1, Except.ok e2 =>
          if elements.length > 3 then
            match idx elements 4 with
            | Except.error e => Except.error e
            | Except.ok e4 => Except.ok ⟨CommandName.SET, [e1, e2, e4]⟩
          else Except.ok ⟨CommandName.SET, [e1, e2]⟩
      else if toLower e0 = getLower then
        match idx elements 1 with
        | Except.error e => Except.error e
        | Except.ok e1 => Except.ok ⟨CommandName.GET, [e1]⟩
      else Except.error PErr.unknownCommand

/-- The 512-byte zero-initialized read buffer: received bytes followed by
the untouched zero padding (`let mut buf = [0; 512]`). -/
def mkBuf (data : List Nat) : List Nat :=
  data ++ List.replicate (512 - data.length) 0

/-- How a connection's handler loop ends: a clean 0-byte read (peer closed),
or a panic that unwinds the spawned task and drops the socket. -/
inductive ConnEnd where
  | peerClosed
  | panicked
deriving DecidableEq

/-- The per-connection loop of src/main.rs `main`: each socket read fills a
fresh zeroed 512-byte buffer, `parse_redis_command` is run on that whole
buffer from offset zero, the single resulting command is dispatched, and the
reply's UTF-8 bytes are written.  `reads` is the list of successive non-empty
socket reads; the result is the list of written replies (as byte lists), the
final store, and how the loop ended.  A panic produces no reply and stops
the loop; the store is shared, so it is threaded through. -/
def connectionLoop : Store → Nat → List (List Nat) → List (List Nat) × Store × ConnEnd
  | dict, _, [] => ([], dict, ConnEnd.peerClosed)
  | dict, now, chunk :: rest =>
    match parse_redis_command (mkBuf chunk) with
    | Except.error _ => ([], dict, ConnEnd.panicked)
    | Except.ok cmd =>
      match dispatcher cmd dict now with
      | Except.error _ => ([], dict, ConnEnd.panicked)
      | Except.ok (reply, dict1) =>
        match connectionLoop dict1 now rest with
        | (outs, dict2, e) => (utf8Str reply :: outs, dict2, e)

/-- Kind of a RESP reply frame. -/
inductive ReplyKind where
  | simple
  | bulk
  | nullBulk
deriving DecidableEq

/-- Split a byte list at its first CRLF; `none` if no CRLF occurs. -/
def splitCRLF : List Nat → Option (List Nat × List Nat)
  | [] => none
  | [_] => none
  | a :: b :: rest =>
    if a = 13 ∧ b = 10 then some ([], rest)
    else
      match splitCRLF (b :: rest) with
      | some (p, r) => some (a :: p, r)
      | none => none

/-- Value of a nonempty all-digit decimal byte string. -/
def digitsToNat (s : List Nat) : Option Nat :=
  match s with
  | [] => none
  | _ =>
    if s.all (fun c => decide (48 ≤ c) && decide (c ≤ 57)) then
      some (s.foldl (fun a c => a * 10 + (c - 48)) 0)
    else none

/-- Modelled from the spec: the RESP reply grammar of section 4.2, the
observer a client uses to decode one reply frame.  `+payload\r\n` is a
simple string, `$-1\r\n` is the null bulk, and `$len\r\npayload\r\n` is a
bulk string whose payload is exactly `len` bytes. -/
def decodeReply (bytes : List Nat) : Option (ReplyKind × List Nat) :=
  match bytes with
  | [] => none
  | b :: rest =>
    if b = 43 then
      match splitCRLF rest with
      | some (p, _) => some (ReplyKind.simple, p)
      | none => none
    else if b = 36 then
      match splitCRLF rest with
      | some (lenStr, body) =>
        if lenStr = [45, 49] then some (ReplyKind.nullBulk, [])
        else
          match digitsToNat lenStr with
          | some n =>
            if (body.drop n).take 2 = [13, 10] then some (ReplyKind.bulk, body.take n)
            else none
          | none => none
      | none => none
    else none

/-! ### Concrete request byte sequences used as test inputs -/

/-- The request bytes of "*1\r\n$4\r\nPING\r\n". -/
def pingRequest : List Nat := [42, 49, 13, 10, 36, 52, 13, 10, 80, 73, 78, 71, 13, 10]

/-- The request bytes of "*3\r\n$3\r\nSET\r\n$1\r\nk\r\n$1\r\n<0xFF>\r\n": SET of
key "k" to the single raw byte 0xFF. -/
def setBinaryRequest : List Nat :=
  [42, 51, 13, 10, 36, 51, 13, 10, 83, 69, 84, 13, 10,
   36, 49, 13, 10, 107, 13, 10, 36, 49, 13, 10, 255, 13, 10]

/-- The request bytes of "*2\r\n$3\r\nGET\r\n$1\r\nk\r\n". -/
def getKeyRequest : List Nat :=
  [42, 50, 13, 10, 36, 51, 13, 10, 71, 69, 84, 13, 10, 36, 49, 13, 10, 107, 13, 10]

/-- The request bytes of "*5\r\n$3\r\nSET\r\n$1\r\nk\r\n$1\r\nv\r\n$2\r\nEX\r\n$3\r\n100\r\n":
an options tail whose keyword is EX, not PX. -/
def setWrongKeywordRequest : List Nat :=
  [42, 53, 13, 10, 36, 51, 13, 10, 83, 69, 84, 13, 10, 36, 49, 13, 10, 107, 13, 10,
   36, 49, 13, 10, 118, 13, 10, 36, 50, 13, 10, 69, 88, 13, 10,
   36, 51, 13, 10, 49, 48, 48, 13, 10]

/-- The request bytes of "*4\r\n$3\r\nSET\r\n$1\r\nk\r\n$1\r\nv\r\n$2\r\nPX\r\n":
a SET whose PX millisecond value is missing (exactly four array elements). -/
def setMissingMsRequest : List Nat :=
  [42, 52, 13, 10, 36, 51, 13, 10, 83, 69, 84, 13, 10, 36, 49, 13, 10, 107, 13, 10,
   36, 49, 13, 10, 118, 13, 10, 36, 50, 13, 10, 80, 88, 13, 10]

/-- The request bytes of "*1\r\n$4\r\nFOOB\r\n": an unknown command word. -/
def unknownWordRequest : List Nat :=
  [42, 49, 13, 10, 36, 52, 13, 10, 70, 79, 79, 66, 13, 10]

/-- The request bytes of "*2\r\n$4\r\nECHO\r\n$2\r\n\r\n\r\n": ECHO of the
two-byte message CR LF. -/
def echoCrlfRequest : List Nat :=
  [42, 50, 13, 10, 36, 52, 13, 10, 69, 67, 72, 79, 13, 10, 36, 50, 13, 10, 13, 10, 13, 10]

/-- The request bytes of "*2\r\n$4\r\nECHO\r\n$1\r\n<0xFF>\r\n": ECHO of the
single raw byte 0xFF. -/
def echoNonAsciiRequest : List Nat :=
  [42, 50, 13, 10, 36, 52, 13, 10, 69, 67, 72, 79, 13, 10, 36, 49, 13, 10, 255, 13, 10]

/-! ### Support lemmas -/

/-- The digit-accumulator loop only prepends decimal digit characters. -/
theorem natDigitsAux_append (fuel : Nat) : ∀ (n : Nat) (acc : RString),
    ∃ l, natDigitsAux fuel n acc = l ++ acc ∧ ∀ c ∈ l, 48 ≤ c ∧ c ≤ 57 := by
  induction fuel with
  | zero => exact fun n acc => ⟨[], rfl, by simp⟩
  | succ fuel ih =>
    intro n acc
    by_cases hn : n = 0
    · exact ⟨[], by simp [natDigitsAux, hn], by simp⟩
    · obtain ⟨l, hl, hm⟩ := ih (n / 10) ((48 + n % 10) :: acc)
      refine ⟨l ++ [48 + n % 10], ?_, ?_⟩
      · simp [natDigitsAux, hn, hl]
      · intro c hc
        rcases List.mem_append.mp hc with h | h
        · exact hm c h
        · simp only [List.mem_singleton] at h
          subst h
          omega

/-- Decimal rendering always begins with a digit character. -/
theorem natToRString_is_digits (n : Nat) :
    ∃ d ds, natToRString n = d :: ds ∧ 48 ≤ d ∧ d ≤ 57 := by
  by_cases hn : n = 0
  · exact ⟨48, [], by simp [natToRString, hn], by omega, by omega⟩
  · have h1 : natToRString n = natDigitsAux n (n / 10) [48 + n % 10] := by
      simp [natToRString, natDigitsAux, hn]
    obtain ⟨l, hl, hm⟩ := natDigitsAux_append n (n / 10) [48 + n % 10]
    cases l with
    | nil => exact ⟨48 + n % 10, [], by simp [h1, hl], by omega, by omega⟩
    | cons c cs =>
      have hc := hm c (by simp)
      exact ⟨c, cs ++ [48 + n % 10], by simp [h1, hl], hc.1, hc.2⟩

/-- A bulk-encoded value is never the null-bulk reply: its second character
is a decimal digit, while the null bulk's is '-'. -/
theorem construct_ne_nullBulk (v : RString) :
    construct_return_redis_string v ≠ nullBulkReply := by
  obtain ⟨d, ds, hd, h48, h57⟩ := natToRString_is_digits (utf8Len v)
  intro h
  rw [construct_return_redis_string, hd] at h
  simp only [nullBulkReply, crlf, List.cons_append, List.cons.injEq] at h
  omega

/-- UTF-8 is the identity on ASCII strings. -/
theorem utf8Str_ascii (s : RString) (h : ∀ c ∈ s, c < 128) : utf8Str s = s := by
  induction s with
  | nil => rfl
  | cons c cs ih =>
    have hc : c < 128 := h c (by simp)
    have hstep : utf8Str (c :: cs) = utf8Char c ++ utf8Str cs := rfl
    rw [hstep, ih (fun x hx => h x (by simp [hx])), utf8Char, if_pos hc]
    rfl

/-- UTF-8 encoding distributes over concatenation. -/
theorem utf8Str_append (a b : RString) : utf8Str (a ++ b) = utf8Str a ++ utf8Str b := by
  induction a with
  | nil => rfl
  | cons c cs ih =>
    simp only [List.cons_append]
    show utf8Char c ++ utf8Str (cs ++ b) = (utf8Char c ++ utf8Str cs) ++ utf8Str b
    rw [ih, List.append_assoc]

/-- Splitting at the first CRLF finds the terminator appended after a
CR-free payload. -/
theorem splitCRLF_no_cr (s : RString) (r : List Nat) (h : ∀ c ∈ s, c ≠ 13) :
    splitCRLF (s ++ 13 :: 10 :: r) = some (s, r) := by
  induction s with
  | nil => simp [splitCRLF]
  | cons a s' ih =>
    have ha : a ≠ 13 := h a (by simp)
    have ih' := ih (fun c hc => h c (by simp [hc]))
    cases s' with
    | nil =>
      simp [splitCRLF, ha]
    | cons b s'' =>
      have hab : ¬(a = 13 ∧ b = 10) := fun hx => ha hx.1
      simp only [List.cons_append] at ih' ⊢
      simp [splitCRLF, hab, ih']

/-! ### Claim theorems -/

/-- C1 (code bug): SET of the raw value byte 0xFF followed by GET does not
round-trip byte-for-byte.  The decoder turns wire byte 0xFF into the char
U+00FF, and the reply encoder re-encodes the stored string as UTF-8, so the
GET reply is the bulk frame "$2\r\n" ++ [0xC3, 0xBF] ++ "\r\n": its decoded
payload [195, 191] differs from the original value [255]. -/
theorem C1_binary_value_round_trip_fails :
    (connectionLoop storeEmpty 0 [setBinaryRequest, getKeyRequest]).1 =
      [[43, 79, 75, 13, 10], [36, 50, 13, 10, 195, 191, 13, 10]] ∧
    decodeReply [36, 50, 13, 10, 195, 191, 13, 10] = some (ReplyKind.bulk, [195, 191]) ∧
    [195, 191] ≠ [255] :=
  ⟨by decide, by decide, by decide⟩

/-- C2 (code bug): the handler parses each socket read from offset zero in a
fresh zeroed buffer, so two complete PING requests arriving in one read
produce a single +PONG reply, while the same bytes split as two reads
produce two replies: replies are not a function of the concatenated request
bytes, and pipelined requests do not each receive a reply. -/
theorem C2_pipelining_loses_replies :
    (connectionLoop storeEmpty 0 [pingRequest ++ pingRequest]).1 =
      [[43, 80, 79, 78, 71, 13, 10]] ∧
    (connectionLoop storeEmpty 0 [pingRequest, pingRequest]).1 =
      [[43, 80, 79, 78, 71, 13, 10], [43, 80, 79, 78, 71, 13, 10]] :=
  ⟨by decide, by decide⟩

/-- C5 (code bug): a SET whose options tail has keyword EX instead of PX is
not rejected: `parse_redis_command` never inspects array element 3, so
"SET k v EX 100" parses to a SET command carrying "100" as its millisecond
operand, and the dispatcher stores the entry with expiry now + 100 and
replies +OK instead of treating the request as a protocol error. -/
theorem C5_wrong_option_keyword_accepted :
    parse_redis_command (mkBuf setWrongKeywordRequest) =
      Except.ok ⟨CommandName.SET, [[107], [118], [49, 48, 48]]⟩ ∧
    dispatcher ⟨CommandName.SET, [[107], [118], [49, 48, 48]]⟩ storeEmpty 0 =
      Except.ok (okReply, storeInsert [107] ⟨[118], some 100⟩ storeEmpty) ∧
    storeInsert [107] ⟨[118], some 100⟩ storeEmpty [107] = some ⟨[118], some 100⟩ :=
  ⟨by decide, rfl, by decide⟩

/-- C6 (code bug): the expiry computation is `checked_add(..).unwrap()`: when
now + ms exceeds the SystemTime domain the SET panics (modelled
`PErr.timeOverflow`) and produces no reply, instead of saturating to the
maximum representable timestamp and replying +OK. -/
theorem C6_expiry_overflow_panics :
    dispatcher ⟨CommandName.SET, [[107], [118], [49]]⟩ storeEmpty maxSystemTimeMs =
      Except.error PErr.timeOverflow := rfl

/-- C3 (confirmed): for any read whose request array's first element is none
of PING, ECHO, SET, GET (case-insensitively), `parse_redis_command` panics
before any reply is computed; the handler loop ends (the unwinding task
drops the socket, closing the connection) having written no reply bytes, and
the shared store — the only state other connections can observe — is
unchanged, so neither other connections nor the server process is affected. -/
theorem C3_unknown_command_no_reply_connection_closed
    (data : List Nat) (future : List (List Nat)) (dict : Store) (now : Nat)
    (elements : List RString) (rest : List Nat) (e0 : RString)
    (hp : parse_array (mkBuf data) = Except.ok (elements, rest))
    (h0 : elements[0]? = some e0)
    (hping : toLower e0 ≠ pingLower) (hecho : toLower e0 ≠ echoLower)
    (hset : toLower e0 ≠ setLower) (hget : toLower e0 ≠ getLower) :
    connectionLoop dict now (data :: future) = ([], dict, ConnEnd.panicked) := by
  have hcmd : parse_redis_command (mkBuf data) = Except.error PErr.unknownCommand := by
    simp [parse_redis_command, hp, idx, h0, hping, hecho, hset, hget]
  simp [connectionLoop, hcmd]

set_option maxRecDepth 8000 in
/-- Witness for C3: the request "*1\r\n$4\r\nFOOB\r\n" on a fresh connection
yields no reply, leaves the store empty, and ends the connection. -/
theorem C3_unknown_command_no_reply_connection_closed_witness :
    connectionLoop storeEmpty 0 [unknownWordRequest] = ([], storeEmpty, ConnEnd.panicked) :=
  C3_unknown_command_no_reply_connection_closed unknownWordRequest [] storeEmpty 0
    [[70, 79, 79, 66]] (List.replicate 498 0) [70, 79, 79, 66]
    (by decide) (by decide) (by decide) (by decide) (by decide) (by decide)

/-- C10 (confirmed): for any request parsing to an array of exactly four
elements whose first element lowercases to "set" — such as SET key value PX
with the millisecond value missing — the decoder accesses `elements[4]`,
which is out of bounds: decoding fails with an index panic and produces no
`Command`. -/
theorem C10_set_four_elements_index_out_of_bounds
    (buf : List Nat) (e0 e1 e2 e3 : RString) (rest : List Nat)
    (hp : parse_array (mkBuf buf) = Except.ok ([e0, e1, e2, e3], rest))
    (hset : toLower e0 = setLower) :
    parse_redis_command (mkBuf buf) = Except.error PErr.indexOutOfBounds := by
  have hping : (setLower = pingLower) = False := by decide
  have hecho : (setLower = echoLower) = False := by decide
  simp [parse_redis_command, hp, idx, hset, hping, hecho]

set_option maxRecDepth 8000 in
/-- Witness for C10: the request "*4\r\n$3\r\nSET\r\n$1\r\nk\r\n$1\r\nv\r\n$2\r\nPX\r\n"
fails to decode with an index panic. -/
theorem C10_set_four_elements_index_out_of_bounds_witness :
    parse_redis_command (mkBuf setMissingMsRequest) = Except.error PErr.indexOutOfBounds :=
  C10_set_four_elements_index_out_of_bounds setMissingMsRequest
    [83, 69, 84] [107] [118] [80, 88] (List.replicate 477 0) (by decide) (by decide)

/-- C4 (counterexample): the dispatcher does not bulk-encode ECHO replies.
For the message CR LF the reply is the simple-string bytes "+\r\n\r\n",
which decode to kind simple with payload [] ≠ [13, 10]; for the message
consisting of the raw byte 0xFF the reply bytes are "+" ++ [0xC3, 0xBF] ++
"\r\n", whose decoded payload [195, 191] ≠ [255]. -/
theorem C4_echo_counterexample :
    (connectionLoop storeEmpty 0 [echoCrlfRequest]).1 = [[43, 13, 10, 13, 10]] ∧
    decodeReply [43, 13, 10, 13, 10] = some (ReplyKind.simple, []) ∧
    ([] : List Nat) ≠ [13, 10] ∧
    (connectionLoop storeEmpty 0 [echoNonAsciiRequest]).1 = [[43, 195, 191, 13, 10]] ∧
    decodeReply [43, 195, 191, 13, 10] = some (ReplyKind.simple, [195, 191]) ∧
    [195, 191] ≠ [255] :=
  ⟨by decide, by decide, by decide, by decide, by decide, by decide⟩

/-- C4 (amended): ECHO replies with the simple-string frame '+' ++ msg ++
CRLF, not a bulk frame; for a message whose code points are ASCII and
contain no CR and no LF, the reply's decoded payload equals the message
exactly. -/
theorem C4_echo_simple_string_round_trip
    (s : RString) (dict : Store) (now : Nat)
    (hs : ∀ c ∈ s, c < 128 ∧ c ≠ 13 ∧ c ≠ 10) :
    dispatcher ⟨CommandName.ECHO, [s]⟩ dict now = Except.ok (43 :: (s ++ crlf), dict) ∧
    decodeReply (utf8Str (43 :: (s ++ crlf))) = some (ReplyKind.simple, s) := by
  constructor
  · simp [dispatcher, idx]
  · have h1 : utf8Str (43 :: (s ++ crlf)) = 43 :: (s ++ 13 :: 10 :: []) := by
      have hstep : utf8Str (43 :: (s ++ crlf)) = utf8Char 43 ++ utf8Str (s ++ crlf) := rfl
      rw [hstep, utf8Str_append, utf8Str_ascii s (fun c hc => (hs c hc).1)]
      rfl
    have h2 : splitCRLF (s ++ 13 :: 10 :: []) = some (s, []) :=
      splitCRLF_no_cr s [] (fun c hc => (hs c hc).2.1)
    rw [h1]
    simp [decodeReply, h2]

/-- Witness for the amended C4 at the concrete message "hi". -/
theorem C4_echo_simple_string_round_trip_witness :
    dispatcher ⟨CommandName.ECHO, [[104, 105]]⟩ storeEmpty 0 =
      Except.ok (43 :: ([104, 105] ++ crlf), storeEmpty) ∧
    decodeReply (utf8Str (43 :: ([104, 105] ++ crlf))) =
      some (ReplyKind.simple, [104, 105]) :=
  C4_echo_simple_string_round_trip [104, 105] storeEmpty 0 (by decide)

/-- C7 (confirmed): for a stored entry with expiry timestamp t, GET at
wall-clock time now replies null bulk exactly when now > t (strict
comparison) and replies the bulk-encoded stored value exactly when now ≤ t;
in particular an entry with expiry equal to now is still served.  The store
is returned unchanged in both cases. -/
theorem C7_get_expiry_comparison_strict
    (dict : Store) (k v : RString) (t now : Nat)
    (h : dict k = some ⟨v, some t⟩) :
    (dispatcher ⟨CommandName.GET, [k]⟩ dict now = Except.ok (nullBulkReply, dict) ↔
      now > t) ∧
    (dispatcher ⟨CommandName.GET, [k]⟩ dict now =
        Except.ok (construct_return_redis_string v, dict) ↔ now ≤ t) := by
  have hne : (Except.ok (nullBulkReply, dict) : Except PErr (RString × Store)) ≠
      Except.ok (construct_return_redis_string v, dict) := by
    intro he
    have h3 := congrArg (fun x : Except PErr (RString × Store) =>
      match x with | Except.ok p => p.1 | Except.error _ => []) he
    exact construct_ne_nullBulk v (by simpa using h3.symm)
  have hd : dispatcher ⟨CommandName.GET, [k]⟩ dict now =
      if now > t then Except.ok (nullBulkReply, dict)
      else Except.ok (construct_return_redis_string v, dict) := by
    simp [dispatcher, idx, h]
  by_cases hc : now > t
  · rw [hd, if_pos hc]
    refine ⟨by simp [hc], ⟨fun he => absurd he hne, fun hle => absurd hc (by omega)⟩⟩
  · rw [hd, if_neg hc]
    have hle : now ≤ t := by omega
    exact ⟨⟨fun he => absurd he.symm hne, fun hgt => absurd hgt hc⟩, by simp [hle]⟩

/-- Witness for C7: with entry (v, expiry 5) stored under key "k", GET at
now = 5 returns the bulk-encoded value, and GET at now = 6 returns null. -/
theorem C7_get_expiry_comparison_strict_witness :
    (dispatcher ⟨CommandName.GET, [[107]]⟩
        (storeInsert [107] ⟨[118], some 5⟩ storeEmpty) 5 =
      Except.ok (construct_return_redis_string [118],
        storeInsert [107] ⟨[118], some 5⟩ storeEmpty)) ∧
    (dispatcher ⟨CommandName.GET, [[107]]⟩
        (storeInsert [107] ⟨[118], some 5⟩ storeEmpty) 6 =
      Except.ok (nullBulkReply, storeInsert [107] ⟨[118], some 5⟩ storeEmpty)) :=
  ⟨(C7_get_expiry_comparison_strict (storeInsert [107] ⟨[118], some 5⟩ storeEmpty)
      [107] [118] 5 5 (by decide)).2.mpr (by decide),
   (C7_get_expiry_comparison_strict (storeInsert [107] ⟨[118], some 5⟩ storeEmpty)
      [107] [118] 5 6 (by decide)).1.mpr (by decide)⟩

/-- C8 (confirmed): after SET k v1 PX T succeeds and SET k v2 (two operands,
no expiry option) runs, the map holds exactly the entry (v2, no expiry)
under k — `HashMap::insert` replaced the old entry, clearing its expiry —
and every later GET k, at any wall-clock time, replies bulk(v2). -/
theorem C8_set_overwrite_clears_expiry
    (dict : Store) (k v1 v2 msStr r1 : RString) (d1 : Store) (now1 now2 : Nat)
    (_h1 : dispatcher ⟨CommandName.SET, [k, v1, msStr]⟩ dict now1 = Except.ok (r1, d1)) :
    dispatcher ⟨CommandName.SET, [k, v2]⟩ d1 now2 =
      Except.ok (okReply, storeInsert k ⟨v2, none⟩ d1) ∧
    storeInsert k ⟨v2, none⟩ d1 k = some ⟨v2, none⟩ ∧
    ∀ now3, dispatcher ⟨CommandName.GET, [k]⟩ (storeInsert k ⟨v2, none⟩ d1) now3 =
      Except.ok (construct_return_redis_string v2, storeInsert k ⟨v2, none⟩ d1) := by
  refine ⟨by simp [dispatcher, idx], by simp [storeInsert], fun now3 => ?_⟩
  simp [dispatcher, idx, storeInsert]

/-- Witness for C8: SET k a PX 5 at time 0, then SET k b, then GET k at the
much later time 1000000 still returns bulk("b"). -/
theorem C8_set_overwrite_clears_expiry_witness :
    dispatcher ⟨CommandName.SET, [[107], [98]]⟩
        (storeInsert [107] ⟨[97], some 5⟩ storeEmpty) 0 =
      Except.ok (okReply,
        storeInsert [107] ⟨[98], none⟩ (storeInsert [107] ⟨[97], some 5⟩ storeEmpty)) ∧
    storeInsert [107] ⟨[98], none⟩ (storeInsert [107] ⟨[97], some 5⟩ storeEmpty) [107] =
      some ⟨[98], none⟩ ∧
    dispatcher ⟨CommandName.GET, [[107]]⟩
        (storeInsert [107] ⟨[98], none⟩ (storeInsert [107] ⟨[97], some 5⟩ storeEmpty))
        1000000 =
      Except.ok (construct_return_redis_string [98],
        storeInsert [107] ⟨[98], none⟩ (storeInsert [107] ⟨[97], some 5⟩ storeEmpty)) := by
  have h := C8_set_overwrite_clears_expiry storeEmpty [107] [97] [98] [53] okReply
    (storeInsert [107] ⟨[97], some 5⟩ storeEmpty) 0 0 rfl
  exact ⟨h.1, h.2.1, h.2.2 1000000⟩

/-- C9 (counterexample): a GET that observes an expired entry does not
remove it.  With ("k" ↦ (v, expiry 5)) in the store, GET k at now = 10
replies null bulk and returns the store unchanged — the expired entry is
still present under "k" afterwards. -/
theorem C9_expired_entry_not_removed_counterexample :
    dispatcher ⟨CommandName.GET, [[107]]⟩
        (storeInsert [107] ⟨[118], some 5⟩ storeEmpty) 10 =
      Except.ok (nullBulkReply, storeInsert [107] ⟨[118], some 5⟩ storeEmpty) ∧
    storeInsert [107] ⟨[118], some 5⟩ storeEmpty [107] = some ⟨[118], some 5⟩ :=
  ⟨rfl, by decide⟩

/-- C9 (amended): a GET observing an expired entry (expiry t with now > t)
replies null bulk — it never returns the expired value — but performs no
removal: the store is returned unchanged, and the entry is destroyed only
when a later SET overwrites the key. -/
theorem C9_expired_get_null_store_unchanged
    (dict : Store) (k v : RString) (t now : Nat)
    (h : dict k = some ⟨v, some t⟩) (ht : t < now) :
    dispatcher ⟨CommandName.GET, [k]⟩ dict now = Except.ok (nullBulkReply, dict) := by
  simp [dispatcher, idx, h, ht]

/-- Witness for the amended C9 at a concrete expired entry. -/
theorem C9_expired_get_null_store_unchanged_witness :
    dispatcher ⟨CommandName.GET, [[106]]⟩
        (storeInsert [106] ⟨[119], some 7⟩ storeEmpty) 9 =
      Except.ok (nullBulkReply, storeInsert [106] ⟨[119], some 7⟩ storeEmpty) :=
  C9_expired_get_null_store_unchanged (storeInsert [106] ⟨[119], some 7⟩ storeEmpty)
    [106] [119] 7 9 (by decide) (by decide)
